import Mathlib

/-!
Verification of the quickfix session state machine.

The coordinator (`stateMachine` in the Go source, file `src/unnamed/part_000`)
is embedded faithfully: `Incoming`, `SendAppMessages`, `Timeout`, `Start`,
`Disconnected`, `CheckSessionTime`, `setState` and `handleDisconnectState`
follow that file line by line.  The concrete state-variant files
(`latent_state.go`, `logon_state.go`, `in_session.go`, `resend_state.go`,
`pending_timeout.go`, `logout_state.go`, `not_session_time.go`) are not part
of the available sources; their behaviour is modelled from the specification
(sections 4.2 and 4.3) and pinned by the unit tests that are available
(`logon_state_test.go`, `resend_state_test.go`, `not_session_time_test.go`,
`latent_state_test.go`).  Time-window queries (`SessionTime.IsInRange`,
`IsInSameRange`) are abstracted into boolean inputs, and side effects
(outbound admin messages, application callbacks, store and timer operations)
are recorded in an explicit effect list.
-/

namespace Quickfix

/-- The three capability bits every session state reports:
`(IsConnected, IsLoggedOn, IsSessionTime)`. -/
structure CapabilityBits where
  isConnected : Bool
  isLoggedOn : Bool
  isSessionTime : Bool
  deriving Repr, DecidableEq

/-- From the source base struct `connected` (`IsConnected = true`,
`IsSessionTime = true`) combined with `connectedNotLoggedOn`
(`IsLoggedOn = false`). -/
def connectedNotLoggedOnBits : CapabilityBits := ⟨true, false, true⟩

/-- From the source base struct `connected` combined with `loggedOn`
(`IsLoggedOn = true`). -/
def loggedOnBits : CapabilityBits := ⟨true, true, true⟩

/-- From the source base struct `inSessionTime` (`IsSessionTime = true`)
with the disconnected defaults. -/
def inSessionTimeBits : CapabilityBits := ⟨false, false, true⟩

/-- The message types the session layer dispatches on.  The codec itself is
external; only the session-relevant classification is kept. -/
inductive MsgType
  | logon
  | logout
  | heartbeat
  | testRequest
  | sequenceReset
  | application
  deriving Repr, DecidableEq

/-- A parsed inbound FIX message, reduced to the header and body fields the
session state machine inspects.  `stale` abstracts the SendingTime check:
it is true when the SendingTime is older than `MaxLatency` relative to the
receive time. -/
structure Message where
  msgType : MsgType
  seqNum : Nat
  possDup : Bool := false
  resetSeqNumFlag : Bool := false
  heartBtInt : Nat := 0
  newSeqNo : Nat := 0
  stale : Bool := false
  deriving Repr, DecidableEq

/-- The closed set of session state variants.  `resendState` carries the
resend bookkeeping `(resendRangeEnd, currentResendRangeEnd)`; the message
stash lives on the session record because in the Go code the stash map is
shared by reference between the successive `resendState` values.
`pendingTimeout` wraps an inner state exactly as the Go struct embeds one. -/
inductive SessionState
  | notSessionTime
  | latentState
  | logonState
  | logoutState
  | inSession
  | resendState (resendRangeEnd : Nat) (currentResendRangeEnd : Nat)
  | pendingTimeout (inner : SessionState)
  deriving Repr, DecidableEq

/-- Modelled from the spec: the concrete state variant files are not under
src/, so the composition of each variant from the base structs follows the
spec's capability table (section 3) as confirmed by the `TestPreliminary`
tests.  `pendingTimeout` inherits the bits of its embedded inner state. -/
def SessionState.caps : SessionState → CapabilityBits
  | .notSessionTime => ⟨false, false, false⟩
  | .latentState => inSessionTimeBits
  | .logonState => connectedNotLoggedOnBits
  | .logoutState => connectedNotLoggedOnBits
  | .inSession => loggedOnBits
  | .resendState _ _ => loggedOnBits
  | .pendingTimeout inner => inner.caps

/-- `IsConnected` of a state variant. -/
def SessionState.isConnected (st : SessionState) : Bool := st.caps.isConnected

/-- `IsLoggedOn` of a state variant. -/
def SessionState.isLoggedOn (st : SessionState) : Bool := st.caps.isLoggedOn

/-- `IsSessionTime` of a state variant. -/
def SessionState.isSessionTime (st : SessionState) : Bool := st.caps.isSessionTime

/-- Timer events delivered to `stateMachine.Timeout` (the `internal.Event`
values used by the session). -/
inductive Event
  | peerTimeout
  | needHeartbeat
  | logonTimeout
  | logoutTimeout
  deriving Repr, DecidableEq

/-- Observable side effects of the state machine: outbound admin messages,
application callbacks, store operations, timer and log operations.
`resetPeerTimer` carries the rearm duration in tenths of the `HeartBtInt`
unit, so `12 * heartBtInt` stands for `1.2 × HeartBtInt`. -/
inductive Effect
  | sendLogon
  | sendLogout (text : String)
  | sendHeartbeat
  | sendTestRequest
  | sendResendRequest (beginSeqNo : Nat) (endSeqNo : Nat)
  | sendReject (refSeqNum : Nat)
  | onLogon
  | onLogout
  | onDisconnect
  | fromAdmin (seqNum : Nat)
  | fromApp (seqNum : Nat)
  | transmitApp (id : Nat)
  | resetStore
  | resetPeerTimer (tenths : Nat)
  | logEvent (text : String)
  | logIncoming
  | logParseError
  deriving Repr, DecidableEq

/-- The mutable session data owned by the coordinator: the current state
variant, the store's sequence numbers, the configuration flags the state
machine consults, the message stash used during resend, and the outbound
send queue (application messages identified by a number).
`appRejectLogon` models the application's `FromAdmin` answer for an inbound
Logon: `none` accepts, `some reason` is `RejectLogon{reason}`. -/
structure Session where
  state : SessionState := .latentState
  pendingStop : Bool := false
  stopped : Bool := false
  nextSender : Nat := 1
  nextTarget : Nat := 1
  initiateLogon : Bool := false
  sentReset : Bool := false
  heartBtInt : Nat := 0
  heartBtIntOverride : Bool := false
  resendRequestChunkSize : Nat := 0
  resetOnLogout : Bool := false
  resetOnDisconnect : Bool := false
  appRejectLogon : Option String := none
  messageStash : List Message := []
  sendQueue : List Nat := []
  deriving Repr, DecidableEq

/-- `session.dropAndReset`: drops the queued outbound messages and resets
the store (sequence numbers back to 1, stored bodies cleared, resend
bookkeeping dropped), per spec section 4.3.4. -/
def dropAndReset (s : Session) : Session × List Effect :=
  ({ s with sendQueue := [], messageStash := [], nextSender := 1, nextTarget := 1 },
   [Effect.resetStore])

/-- `session.onDisconnect`: transport teardown; when `ResetOnDisconnect` is
set the store is dropped and reset as well. -/
def onDisconnect (s : Session) : Session × List Effect :=
  if s.resetOnDisconnect then
    let r := dropAndReset s
    (r.1, r.2 ++ [Effect.onDisconnect])
  else (s, [Effect.onDisconnect])

/-- `stateMachine.handleDisconnectState` from the source: `OnLogout` is
invoked when the outgoing state is logged on, is `logoutState`, or is
`logonState` with `InitiateLogon` set; then `onDisconnect` runs. -/
def handleDisconnectState (s : Session) : Session × List Effect :=
  let doOnLogout : Bool :=
    s.state.isLoggedOn ||
      (match s.state with
       | .logoutState => true
       | .logonState => s.initiateLogon
       | _ => false)
  let r := onDisconnect s
  (r.1, (if doOnLogout then [Effect.onLogout] else []) ++ r.2)

/-- `stateMachine.setState` from the source: when moving from a connected
state to a disconnected one, run the disconnect side effects and latch the
`stopped` flag if a stop is pending; then install the next state. -/
def setState (s : Session) (next : SessionState) : Session × List Effect :=
  if next.isConnected then ({ s with state := next }, [])
  else
    let r := if s.state.isConnected then handleDisconnectState s else (s, [])
    let s2 := if r.1.pendingStop then { r.1 with stopped := true } else r.1
    ({ s2 with state := next }, r.2)

/-- Modelled from the spec: the SendingTime staleness check is suspended
while the session is replaying a resend (spec sections 4.2.3 and 4.2.4);
the current machine state decides, since the state field is only replaced
after message processing returns. -/
def checkStaleSuspended (s : Session) : Bool :=
  match s.state with
  | .resendState _ _ => true
  | _ => false

/-- Header validation outcomes relevant to the embedded checks. -/
inductive VerifyError
  | staleSendingTime
  | targetTooHigh (received : Nat)
  | targetTooLow (received : Nat)
  deriving Repr, DecidableEq

/-- Modelled from the spec: header verification (spec section 4.2.3) reduced
to the SendingTime staleness check and the MsgSeqNum gap checks of section
4.3.1. -/
def verify (s : Session) (m : Message) : Option VerifyError :=
  if !checkStaleSuspended s && m.stale then some .staleSendingTime
  else if s.nextTarget < m.seqNum then some (.targetTooHigh m.seqNum)
  else if m.seqNum < s.nextTarget then some (.targetTooLow m.seqNum)
  else none

/-- Modelled from the spec: `session.sendResendRequest` with chunking as in
spec section 4.3.2 and scenario 5.  Returns the updated session together
with the `(resendRangeEnd, currentResendRangeEnd)` bookkeeping of the new
`resendState`: the requested end is capped at `begin + chunkSize - 1` when a
chunk size is configured, and an `EndSeqNo` of 0 (meaning infinity) is sent
whenever the capped end already covers the full range. -/
def sendResendRequest (s : Session) (beginSeq endSeq : Nat) :
    Session × Nat × Nat × List Effect :=
  let chunked : Nat :=
    if s.resendRequestChunkSize ≠ 0 then beginSeq + s.resendRequestChunkSize - 1
    else endSeq
  if endSeq ≤ chunked then
    ({ s with nextSender := s.nextSender + 1 }, endSeq, 0,
     [Effect.sendResendRequest beginSeq 0])
  else
    ({ s with nextSender := s.nextSender + 1 }, endSeq, chunked,
     [Effect.sendResendRequest beginSeq chunked])

/-- Lookup in the stash of messages received ahead of the resend range (the
Go `messageStash` map keyed by MsgSeqNum). -/
def stashLookup (stash : List Message) (seq : Nat) : Option Message :=
  stash.find? (fun m => m.seqNum == seq)

/-- Remove a sequence number's entry from the stash. -/
def stashErase (stash : List Message) (seq : Nat) : List Message :=
  stash.filter (fun m => m.seqNum != seq)

/-- Insert with map semantics: a later entry for a key overwrites. -/
def stashInsert (stash : List Message) (m : Message) : List Message :=
  stashErase stash m.seqNum ++ [m]

/-- Modelled from the spec: the too-high branch of `inSession` message
processing (spec section 4.2.3).  When the machine is already in
`resendState` the message is only stashed and no further ResendRequest is
sent; otherwise a ResendRequest for `[expected, received - 1]` goes out and
the machine enters `resendState` with a fresh stash. -/
def processTooHigh (s : Session) (m : Message) :
    Session × SessionState × List Effect :=
  match s.state with
  | .resendState a b =>
      ({ s with messageStash := stashInsert s.messageStash m }, .resendState a b, [])
  | _ =>
      let e0 := [Effect.logEvent ("MsgSeqNum too high, expecting " ++
        toString s.nextTarget ++ " but received " ++ toString m.seqNum)]
      let r := sendResendRequest s s.nextTarget (m.seqNum - 1)
      ({ r.1 with messageStash := stashInsert [] m },
       .resendState r.2.1 r.2.2.1, e0 ++ r.2.2.2)

/-- Modelled from the spec: `inSession.FixMsgIn` (spec section 4.2.3).
Admin types are handled per their bullet; application messages run the
header checks of `verify` and on success are delivered to `FromApp` with
the target sequence number advanced. -/
def inSessionFixMsgIn (s : Session) (m : Message) :
    Session × SessionState × List Effect :=
  match m.msgType with
  | .logon =>
      let r :=
        if m.resetSeqNumFlag && !s.sentReset then
          ({ s with nextSender := 1, nextTarget := 1 }, [Effect.resetStore])
        else (s, ([] : List Effect))
      ({ r.1 with nextTarget := r.1.nextTarget + 1, nextSender := r.1.nextSender + 1 },
       .inSession, r.2 ++ [Effect.fromAdmin m.seqNum, Effect.sendLogon])
  | .logout =>
      let s1 := { s with nextTarget := s.nextTarget + 1 }
      let r := if s1.resetOnLogout then dropAndReset s1 else (s1, [])
      (r.1, .latentState, [Effect.fromAdmin m.seqNum] ++ r.2)
  | .heartbeat =>
      ({ s with nextTarget := s.nextTarget + 1 }, .inSession, [Effect.fromAdmin m.seqNum])
  | .testRequest =>
      ({ s with nextTarget := s.nextTarget + 1, nextSender := s.nextSender + 1 },
       .inSession, [Effect.fromAdmin m.seqNum, Effect.sendHeartbeat])
  | .sequenceReset =>
      let s1 := if s.nextTarget < m.newSeqNo then { s with nextTarget := m.newSeqNo } else s
      (s1, .inSession, [Effect.fromAdmin m.seqNum])
  | .application =>
      match verify s m with
      | some .staleSendingTime =>
          ({ s with nextTarget := s.nextTarget + 1, nextSender := s.nextSender + 1 },
           .inSession, [Effect.sendReject m.seqNum])
      | some (.targetTooHigh _) => processTooHigh s m
      | some (.targetTooLow _) =>
          if m.possDup then (s, .inSession, [])
          else
            let text := "MsgSeqNum too low, expecting " ++ toString s.nextTarget ++
              " but received " ++ toString m.seqNum
            ({ s with nextSender := s.nextSender + 1 }, .latentState,
             [Effect.sendLogout text])
      | none =>
          ({ s with nextTarget := s.nextTarget + 1 }, .inSession, [Effect.fromApp m.seqNum])

/-- Modelled from the spec: once the resend range is satisfied the messages
stashed during the gap are processed in sequence order (spec section 4.2.4).
The fuel is the stash size; every drained message removes one entry. -/
def drainStash : Nat → Session → SessionState → Session × SessionState × List Effect
  | 0, s, next => (s, next, [])
  | fuel + 1, s, next =>
      match stashLookup s.messageStash s.nextTarget with
      | none => (s, next, [])
      | some m =>
          let s1 := { s with messageStash := stashErase s.messageStash s.nextTarget }
          let r := inSessionFixMsgIn s1 m
          if !r.2.1.isLoggedOn then r
          else
            let r2 := drainStash fuel r.1 r.2.1
            (r2.1, r2.2.1, r.2.2 ++ r2.2.2)

/-- Modelled from the spec: `resendState.FixMsgIn` (spec section 4.2.4).
Processing is delegated to the `inSession` handler (with the staleness
check suspended via `checkStaleSuspended`); afterwards, if the current
chunk is satisfied the next chunk's ResendRequest is sent, if the whole
range is satisfied the stash is drained and the machine returns to
`inSession`, and otherwise the resend bookkeeping is kept. -/
def resendStateFixMsgIn (s : Session) (rangeEnd current : Nat) (m : Message) :
    Session × SessionState × List Effect :=
  let r := inSessionFixMsgIn s m
  if !r.2.1.isLoggedOn then r
  else if current ≠ 0 && current < r.1.nextTarget then
    let q := sendResendRequest r.1 r.1.nextTarget rangeEnd
    (q.1, .resendState q.2.1 q.2.2.1, r.2.2 ++ q.2.2.2)
  else if r.1.nextTarget ≤ rangeEnd then
    (r.1, .resendState rangeEnd current, r.2.2)
  else
    let d := drainStash r.1.messageStash.length r.1 r.2.1
    (d.1, d.2.1, r.2.2 ++ d.2.2)

/-- Modelled from the spec: `logonState.FixMsgIn` (spec section 4.2.2).
A non-Logon message sends the machine back to `latentState` without
advancing the target sequence number.  For a Logon: sequence numbers are
reset when the peer requests a reset we did not initiate; `HeartBtInt` is
taken from the message unless overridden; `FromAdmin` may answer
`RejectLogon{reason}`, which sends a Logout carrying the reason; then the
MsgSeqNum is validated (too low without reset sends the "MsgSeqNum too low"
Logout and leaves the target unchanged; equal moves to `inSession`; too
high enters `resendState` after a ResendRequest), with an acceptor replying
with a Logon and `OnLogon` fired on the accepted paths. -/
def logonFixMsgIn (s : Session) (m : Message) :
    Session × SessionState × List Effect :=
  if m.msgType ≠ .logon then (s, .latentState, [])
  else
    let r :=
      if m.resetSeqNumFlag && !s.sentReset then
        ({ s with nextSender := 1, nextTarget := 1 }, [Effect.resetStore])
      else (s, ([] : List Effect))
    let s2 := if !r.1.heartBtIntOverride then { r.1 with heartBtInt := m.heartBtInt } else r.1
    match s2.appRejectLogon with
    | some reason =>
        ({ s2 with nextSender := s2.nextSender + 1, nextTarget := s2.nextTarget + 1 },
         .latentState, r.2 ++ [Effect.fromAdmin m.seqNum, Effect.sendLogout reason])
    | none =>
        if m.seqNum < s2.nextTarget then
          let text := "MsgSeqNum too low, expecting " ++ toString s2.nextTarget ++
            " but received " ++ toString m.seqNum
          ({ s2 with nextSender := s2.nextSender + 1 }, .latentState,
           r.2 ++ [Effect.fromAdmin m.seqNum, Effect.sendLogout text])
        else
          let q :=
            if !s2.initiateLogon then
              ({ s2 with nextSender := s2.nextSender + 1 }, [Effect.sendLogon])
            else (s2, ([] : List Effect))
          if m.seqNum = q.1.nextTarget then
            ({ q.1 with nextTarget := q.1.nextTarget + 1 }, .inSession,
             r.2 ++ [Effect.fromAdmin m.seqNum] ++ q.2 ++ [Effect.onLogon])
          else
            let e4 := [Effect.logEvent ("MsgSeqNum too high, expecting " ++
              toString q.1.nextTarget ++ " but received " ++ toString m.seqNum)]
            let w := sendResendRequest q.1 q.1.nextTarget (m.seqNum - 1)
            ({ w.1 with messageStash := stashInsert [] m },
             .resendState w.2.1 w.2.2.1,
             r.2 ++ [Effect.fromAdmin m.seqNum] ++ q.2 ++ [Effect.onLogon] ++ e4 ++ w.2.2.2)

/-- Modelled from the spec: `logoutState.FixMsgIn` (spec section 4.2.6).
An inbound Logout completes the exchange and moves to `latentState`
(resetting the store when `ResetOnLogout` is set); other messages are still
delivered and the machine stays in `logoutState`; the target sequence
number advances in both cases. -/
def logoutFixMsgIn (s : Session) (m : Message) :
    Session × SessionState × List Effect :=
  match m.msgType with
  | .logout =>
      let s1 := { s with nextTarget := s.nextTarget + 1 }
      let r := if s1.resetOnLogout then dropAndReset s1 else (s1, [])
      (r.1, .latentState, [Effect.fromAdmin m.seqNum] ++ r.2)
  | .application =>
      ({ s with nextTarget := s.nextTarget + 1 }, .logoutState, [Effect.fromApp m.seqNum])
  | _ =>
      ({ s with nextTarget := s.nextTarget + 1 }, .logoutState, [Effect.fromAdmin m.seqNum])

/-- Per-variant `FixMsgIn` dispatch.  `latentState` and `notSessionTime`
ignore inbound messages; `pendingTimeout` delegates to its embedded inner
state exactly as the Go struct embedding does. -/
def dispatchFixMsgIn : SessionState → Session → Message → Session × SessionState × List Effect
  | .notSessionTime, s, _ => (s, .notSessionTime, [])
  | .latentState, s, _ => (s, .latentState, [])
  | .logonState, s, m => logonFixMsgIn s m
  | .logoutState, s, m => logoutFixMsgIn s m
  | .inSession, s, m => inSessionFixMsgIn s m
  | .resendState a b, s, m => resendStateFixMsgIn s a b m
  | .pendingTimeout inner, s, m => dispatchFixMsgIn inner s m

/-- `stateMachine.fixMsgIn` from the source: run the current state's
`FixMsgIn` and install the returned next state via `setState`. -/
def fixMsgIn (s : Session) (m : Message) : Session × List Effect :=
  let r := dispatchFixMsgIn s.state s m
  let q := setState r.1 r.2.1
  (q.1, r.2.2 ++ q.2)

/-- Modelled from the spec: the per-variant `Timeout` handlers (spec
sections 4.2.2 to 4.2.7).  In the logged-on states `NeedHeartbeat` sends a
Heartbeat and `PeerTimeout` sends a TestRequest and wraps the state in
`pendingTimeout`; in `pendingTimeout` a further `PeerTimeout` gives up and
returns to `latentState` while the other events leave the state unchanged
(per `PendingTimeoutTestSuite`, no Heartbeat goes out there); `logonState`
and `logoutState` react only to their own timeout events. -/
def stateTimeout (s : Session) (e : Event) : Session × SessionState × List Effect :=
  match s.state, e with
  | .inSession, .needHeartbeat =>
      ({ s with nextSender := s.nextSender + 1 }, .inSession, [Effect.sendHeartbeat])
  | .inSession, .peerTimeout =>
      ({ s with nextSender := s.nextSender + 1 }, .pendingTimeout .inSession,
       [Effect.sendTestRequest])
  | .inSession, _ => (s, .inSession, [])
  | .resendState a b, .needHeartbeat =>
      ({ s with nextSender := s.nextSender + 1 }, .resendState a b, [Effect.sendHeartbeat])
  | .resendState a b, .peerTimeout =>
      ({ s with nextSender := s.nextSender + 1 }, .pendingTimeout (.resendState a b),
       [Effect.sendTestRequest])
  | .resendState a b, _ => (s, .resendState a b, [])
  | .logonState, .logonTimeout => (s, .latentState, [])
  | .logonState, _ => (s, .logonState, [])
  | .logoutState, .logoutTimeout => (s, .latentState, [])
  | .logoutState, _ => (s, .logoutState, [])
  | .pendingTimeout _, .peerTimeout =>
      (s, .latentState, [Effect.logEvent ("Session Timeout")])
  | .pendingTimeout inner, _ => (s, .pendingTimeout inner, [])
  | .latentState, _ => (s, .latentState, [])
  | .notSessionTime, _ => (s, .notSessionTime, [])

/-- `sessionState.ShutdownNow`: per the source base structs, a logged-on
state sends a Logout with empty text and a `connectedNotLoggedOn` state
does nothing; the disconnected variants also do nothing. -/
def shutdownNow (s : Session) : Session × List Effect :=
  if s.state.isLoggedOn then
    ({ s with nextSender := s.nextSender + 1 }, [Effect.sendLogout ("")])
  else (s, [])

/-- `stateMachine.CheckSessionTime` from the source, with the window
queries `SessionTime.IsInRange now` and
`SessionTime.IsInSameRange creationTime now` abstracted into the booleans
`inRange` and `sameRange` (the one-shot in-session-time notification
channel is not modelled). -/
def checkSessionTime (s : Session) (inRange sameRange : Bool) :
    Session × List Effect :=
  if !inRange then
    let e0 := if s.state.isSessionTime then [Effect.logEvent ("Not in Session")] else []
    let r1 := shutdownNow s
    let r2 := setState r1.1 .notSessionTime
    (r2.1, e0 ++ r1.2 ++ r2.2)
  else
    let r1 :=
      if !s.state.isSessionTime then
        let q := setState s .latentState
        (q.1, [Effect.logEvent ("In Session")] ++ q.2)
      else (s, ([] : List Effect))
    if !sameRange then
      let r2 := shutdownNow r1.1
      let r3 := dropAndReset r2.1
      let r4 := setState r3.1 .latentState
      (r4.1, r1.2 ++ [Effect.logEvent ("Session reset")] ++ r2.2 ++ r3.2 ++ r4.2)
    else r1

/-- The duration the peer timer is rearmed to, in tenths of the
`HeartBtInt` unit: `1.2 × HeartBtInt`. -/
def peerTimerTenths (s : Session) : Nat := 12 * s.heartBtInt

/-- An inbound frame handed to `stateMachine.Incoming`; `parsed` is the
outcome of `ParseMessage` (`none` on a parse error). -/
structure FixIn where
  parsed : Option Message
  deriving Repr, DecidableEq

/-- `stateMachine.Incoming` from the source: check the session time, bail
out if not connected, log the raw bytes, parse (a parse error is logged and
the frame dropped), otherwise process the message — and in either case
rearm the peer timer to `1.2 × HeartBtInt`. -/
def Incoming (s : Session) (inRange sameRange : Bool) (f : FixIn) :
    Session × List Effect :=
  let r := checkSessionTime s inRange sameRange
  if !r.1.state.isConnected then r
  else
    match f.parsed with
    | none =>
        (r.1, r.2 ++ [Effect.logIncoming, Effect.logParseError,
          Effect.resetPeerTimer (peerTimerTenths r.1)])
    | some m =>
        let q := fixMsgIn r.1 m
        (q.1, r.2 ++ [Effect.logIncoming] ++ q.2 ++
          [Effect.resetPeerTimer (peerTimerTenths q.1)])

/-- `stateMachine.SendAppMessages` from the source: after the session-time
check, a logged-on session drains the send queue (each queued message is
transmitted and consumes a sender sequence number), any other session drops
the queue. -/
def SendAppMessages (s : Session) (inRange sameRange : Bool) :
    Session × List Effect :=
  let r := checkSessionTime s inRange sameRange
  if r.1.state.isLoggedOn then
    ({ r.1 with sendQueue := [], nextSender := r.1.nextSender + r.1.sendQueue.length },
     r.2 ++ r.1.sendQueue.map Effect.transmitApp)
  else
    ({ r.1 with sendQueue := [] }, r.2)

/-- `stateMachine.Timeout` from the source: session-time check, then the
current state's `Timeout` handler, then `setState`. -/
def Timeout (s : Session) (inRange sameRange : Bool) (e : Event) :
    Session × List Effect :=
  let r := checkSessionTime s inRange sameRange
  let q := stateTimeout r.1 e
  let w := setState q.1 q.2.1
  (w.1, r.2 ++ q.2.2 ++ w.2)

/-- `stateMachine.Start` from the source: clear the lifecycle flags, enter
`latentState` and run the session-time check. -/
def Start (s : Session) (inRange sameRange : Bool) : Session × List Effect :=
  checkSessionTime { s with pendingStop := false, stopped := false, state := .latentState }
    inRange sameRange

/-- `stateMachine.Disconnected` from the source: only a connected state
reacts, by moving to `latentState` through `setState`. -/
def Disconnected (s : Session) : Session × List Effect :=
  if s.state.isConnected then setState s .latentState else (s, [])

/-- Claim C1: every state variant reports the capability bits of the spec's
table, and `pendingTimeout` inherits the bits of its inner state (so all
three bits are true for both the `inSession` and the `resendState` inner). -/
theorem capability_bits_table :
    SessionState.caps .notSessionTime = ⟨false, false, false⟩ ∧
    SessionState.caps .latentState = ⟨false, false, true⟩ ∧
    SessionState.caps .logonState = ⟨true, false, true⟩ ∧
    SessionState.caps .logoutState = ⟨true, false, true⟩ ∧
    SessionState.caps .inSession = ⟨true, true, true⟩ ∧
    (∀ a b, SessionState.caps (.resendState a b) = ⟨true, true, true⟩) ∧
    (∀ inner, SessionState.caps (.pendingTimeout inner) = inner.caps) ∧
    SessionState.caps (.pendingTimeout .inSession) = ⟨true, true, true⟩ ∧
    (∀ a b, SessionState.caps (.pendingTimeout (.resendState a b)) = ⟨true, true, true⟩) := by
  refine ⟨rfl, rfl, rfl, rfl, rfl, fun a b => rfl, fun inner => rfl, rfl, fun a b => rfl⟩

/-- The session of spec scenario 5: `inSession`, both sequence numbers at 1,
`ResendRequestChunkSize = 2`. -/
def chunkScenarioStart : Session := { state := .inSession, resendRequestChunkSize := 2 }

/-- An inbound application message carrying the given MsgSeqNum. -/
def appMessage (seq : Nat) : Message := { msgType := .application, seqNum := seq }

/-- Scenario 5 after the out-of-order message 4 arrives. -/
def chunkAfterGap : Session × List Effect := fixMsgIn chunkScenarioStart (appMessage 4)

/-- Scenario 5 after message 1 is replayed. -/
def chunkAfterReplay1 : Session × List Effect := fixMsgIn chunkAfterGap.1 (appMessage 1)

/-- Scenario 5 after message 2 is replayed. -/
def chunkAfterReplay2 : Session × List Effect := fixMsgIn chunkAfterReplay1.1 (appMessage 2)

/-- Scenario 5 after message 3 is replayed. -/
def chunkAfterReplay3 : Session × List Effect := fixMsgIn chunkAfterReplay2.1 (appMessage 3)

/-- Claim C2: with `ResendRequestChunkSize = 2`, `nextTarget = 1` and an
inbound application message with MsgSeqNum 4, the session sends
`ResendRequest(BeginSeqNo = 1, EndSeqNo = 2)` and enters `resendState`
without advancing `nextTarget`; after the replayed messages 1 and 2 the
second `ResendRequest(BeginSeqNo = 3, EndSeqNo = 0)` goes out; and after
message 3 is replayed (and the stashed message 4 is drained) the state
returns to `inSession` with `nextTarget = 5`. -/
theorem resend_chunking_scenario :
    chunkAfterGap.1.state = .resendState 3 2 ∧
    chunkAfterGap.1.nextTarget = 1 ∧
    chunkAfterGap.2 = [Effect.logEvent ("MsgSeqNum too high, expecting 1 but received 4"),
      Effect.sendResendRequest 1 2] ∧
    chunkAfterReplay1.1.state = .resendState 3 2 ∧
    chunkAfterReplay1.1.nextTarget = 2 ∧
    chunkAfterReplay1.2 = [Effect.fromApp 1] ∧
    chunkAfterReplay2.1.state = .resendState 3 0 ∧
    chunkAfterReplay2.1.nextTarget = 3 ∧
    chunkAfterReplay2.2 = [Effect.fromApp 2, Effect.sendResendRequest 3 0] ∧
    chunkAfterReplay3.1.state = .inSession ∧
    chunkAfterReplay3.1.nextTarget = 5 ∧
    chunkAfterReplay3.2 = [Effect.fromApp 3, Effect.fromApp 4] := by
  decide

/-- Claim C3: in `logonState` with `nextTarget = 2`, an inbound Logon with
MsgSeqNum 1 and no `ResetSeqNumFlag=Y` (for a session whose application
accepts the logon and with the default `ResetOnDisconnect = false`) makes
the session send a Logout with Text
"MsgSeqNum too low, expecting 2 but received 1" and fall back to
`latentState` with `nextTarget` still 2. -/
theorem logon_seqnum_too_low (s : Session) (m : Message)
    (hs : s.state = .logonState) (ht : s.nextTarget = 2)
    (ha : s.appRejectLogon = none) (hd : s.resetOnDisconnect = false)
    (hm : m.msgType = .logon) (hq : m.seqNum = 1) (hr : m.resetSeqNumFlag = false) :
    (fixMsgIn s m).1.state = .latentState ∧
    Effect.sendLogout ("MsgSeqNum too low, expecting 2 but received 1") ∈ (fixMsgIn s m).2 ∧
    (fixMsgIn s m).1.nextTarget = 2 := by
  cases hb : s.heartBtIntOverride <;>
  cases hi : s.initiateLogon <;>
  simp [fixMsgIn, hs, dispatchFixMsgIn, logonFixMsgIn, hm, hq, hr, ha, ht, hd, hb, hi,
    setState, handleDisconnectState, onDisconnect, dropAndReset,
    SessionState.isConnected, SessionState.isLoggedOn, SessionState.caps,
    connectedNotLoggedOnBits, inSessionTimeBits, loggedOnBits] <;>
  exact ⟨by decide, by split <;> rfl⟩

/-- A `logonState` session expecting MsgSeqNum 2, used to instantiate
`logon_seqnum_too_low`. -/
def lowLogonSession : Session := { state := .logonState, nextTarget := 2, nextSender := 2 }

/-- The too-low inbound Logon (MsgSeqNum 1, no reset flag). -/
def lowLogonMessage : Message := { msgType := .logon, seqNum := 1, heartBtInt := 32 }

/-- Witness for claim C3 at a concrete session and message. -/
theorem logon_seqnum_too_low_witness :
    (fixMsgIn lowLogonSession lowLogonMessage).1.state = .latentState ∧
    Effect.sendLogout ("MsgSeqNum too low, expecting 2 but received 1") ∈
      (fixMsgIn lowLogonSession lowLogonMessage).2 ∧
    (fixMsgIn lowLogonSession lowLogonMessage).1.nextTarget = 2 :=
  logon_seqnum_too_low lowLogonSession lowLogonMessage rfl rfl rfl rfl rfl rfl rfl

/-- A `logonState` acceptor session (no `InitiateLogon`) whose application
answers `RejectLogon{"reject message"}`. -/
def rejectedLogonSession : Session := { state := .logonState
                                        nextTarget := 2
                                        nextSender := 2
                                        appRejectLogon := some ("reject message") }

/-- The inbound Logon the application rejects. -/
def rejectedLogonMessage : Message := { msgType := .logon, seqNum := 2, heartBtInt := 32 }

/-- Counterexample to claim C7 as stated: for a session without
`InitiateLogon`, a rejected Logon does send the Logout with the reject
reason and fall to `latentState`, but `application.OnLogout` is never
invoked — so the claim's "regardless of whether InitiateLogon is set" part
is false on the code (`stateMachine.handleDisconnectState` fires `OnLogout`
for an outgoing `logonState` only when `InitiateLogon` is set, and
`logonState` is not logged on). -/
theorem reject_logon_counterexample :
    (fixMsgIn rejectedLogonSession rejectedLogonMessage).1.state = .latentState ∧
    Effect.sendLogout ("reject message") ∈ (fixMsgIn rejectedLogonSession rejectedLogonMessage).2 ∧
    Effect.onLogout ∉ (fixMsgIn rejectedLogonSession rejectedLogonMessage).2 := by
  decide

/-- Claim C7 as amended: when the application answers `RejectLogon{reason}`
to an inbound Logon in `logonState`, the session sends a Logout whose Text
equals the reason and transitions to `latentState`; `application.OnLogout`
is invoked during that transition exactly when `InitiateLogon` is set. -/
theorem reject_logon_behaviour (s : Session) (m : Message) (reason : String)
    (hs : s.state = .logonState) (ha : s.appRejectLogon = some reason)
    (hm : m.msgType = .logon) :
    (fixMsgIn s m).1.state = .latentState ∧
    Effect.sendLogout reason ∈ (fixMsgIn s m).2 ∧
    (Effect.onLogout ∈ (fixMsgIn s m).2 ↔ s.initiateLogon = true) := by
  cases hx : m.resetSeqNumFlag <;>
  cases hy : s.sentReset <;>
  cases hb : s.heartBtIntOverride <;>
  cases hi : s.initiateLogon <;>
  cases hd : s.resetOnDisconnect <;>
  simp [fixMsgIn, hs, dispatchFixMsgIn, logonFixMsgIn, hm, ha, hx, hy, hb, hi, hd,
    setState, handleDisconnectState, onDisconnect, dropAndReset,
    SessionState.isConnected, SessionState.isLoggedOn, SessionState.caps,
    connectedNotLoggedOnBits, inSessionTimeBits, loggedOnBits]

/-- The initiating variant of the rejected-logon session. -/
def rejectedLogonInitiator : Session := { rejectedLogonSession with initiateLogon := true }

/-- Witness for the amended claim C7 at a concrete initiating session. -/
theorem reject_logon_behaviour_witness :
    (fixMsgIn rejectedLogonInitiator rejectedLogonMessage).1.state = .latentState ∧
    Effect.sendLogout ("reject message") ∈ (fixMsgIn rejectedLogonInitiator rejectedLogonMessage).2 ∧
    (Effect.onLogout ∈ (fixMsgIn rejectedLogonInitiator rejectedLogonMessage).2 ↔
      rejectedLogonInitiator.initiateLogon = true) :=
  reject_logon_behaviour rejectedLogonInitiator rejectedLogonMessage ("reject message") rfl rfl rfl

/-- Every connected state variant is also in session time. -/
theorem connected_isSessionTime (st : SessionState) (h : st.isConnected = true) :
    st.isSessionTime = true := by
  induction st with
  | pendingTimeout inner ih => exact ih h
  | _ => simp_all [SessionState.isConnected, SessionState.isSessionTime, SessionState.caps,
      connectedNotLoggedOnBits, loggedOnBits, inSessionTimeBits]

/-- Inside the window, with the creation time in the same window, the
session-time check is a no-op for a state already in session time. -/
theorem checkSessionTime_in_range (s : Session) (h : s.state.isSessionTime = true) :
    checkSessionTime s true true = (s, []) := by
  simp [checkSessionTime, h]

/-- `setState` always installs the requested next state. -/
theorem setState_state (s : Session) (next : SessionState) :
    (setState s next).1.state = next := by
  unfold setState; split <;> rfl

/-- On a disconnected state, `Disconnected` does nothing at all. -/
theorem Disconnected_not_connected (s : Session) (h : s.state.isConnected = false) :
    Disconnected s = (s, []) := by
  simp [Disconnected, h]

/-- Claim C10: `Disconnected` is a no-op on states that are not connected —
it leaves the session unchanged and produces no effects — and it is
idempotent: after any first call, a second call changes nothing and has no
side effects. -/
theorem disconnected_noop (s : Session) :
    (s.state.isConnected = false → Disconnected s = (s, [])) ∧
    Disconnected (Disconnected s).1 = ((Disconnected s).1, []) := by
  refine ⟨fun h => Disconnected_not_connected s h, ?_⟩
  cases hc : s.state.isConnected
  · rw [Disconnected_not_connected s hc]
    exact Disconnected_not_connected s hc
  · apply Disconnected_not_connected
    have hst : (Disconnected s).1.state = SessionState.latentState := by
      simp [Disconnected, hc, setState_state]
    rw [hst]; rfl

/-- A session sitting in `latentState`, used to instantiate claim C10. -/
def idleLatentSession : Session := { state := .latentState, sendQueue := [7] }

/-- Witness for claim C10: on a concrete `latentState` session,
`Disconnected` changes nothing. -/
theorem disconnected_noop_witness :
    Disconnected idleLatentSession = (idleLatentSession, []) :=
  (disconnected_noop idleLatentSession).1 rfl

/-- Claim C5: while connected (inside the window), every inbound frame ends
with the peer timer rearmed to `1.2 × HeartBtInt` (recorded in tenths of
the `HeartBtInt` unit), and on a parse error the frame is logged and
dropped without touching the session — the timer is still rearmed. -/
theorem peer_timer_reset (s : Session) (f : FixIn) (h : s.state.isConnected = true) :
    Effect.resetPeerTimer (peerTimerTenths (Incoming s true true f).1) ∈
      (Incoming s true true f).2 ∧
    (f.parsed = none →
      (Incoming s true true f).1 = s ∧
      (Incoming s true true f).2 = [Effect.logIncoming, Effect.logParseError,
        Effect.resetPeerTimer (peerTimerTenths s)]) := by
  have hst : s.state.isSessionTime = true := connected_isSessionTime s.state h
  have hc : checkSessionTime s true true = (s, []) := checkSessionTime_in_range s hst
  cases hp : f.parsed with
  | none => constructor <;> simp [Incoming, hc, h, hp]
  | some m => constructor <;> simp [Incoming, hc, h, hp]

/-- A connected session with `HeartBtInt` of 30 units. -/
def connectedHeartbeatSession : Session := { state := .inSession, heartBtInt := 30 }

/-- A frame the codec fails to parse. -/
def unparsableFrame : FixIn := { parsed := none }

/-- Witness for claim C5 on a concrete connected session and a malformed
frame: the session is untouched and the timer is rearmed to 36 tenths,
that is `1.2 × 30`. -/
theorem peer_timer_reset_witness :
    Effect.resetPeerTimer
        (peerTimerTenths (Incoming connectedHeartbeatSession true true unparsableFrame).1) ∈
      (Incoming connectedHeartbeatSession true true unparsableFrame).2 ∧
    (unparsableFrame.parsed = none →
      (Incoming connectedHeartbeatSession true true unparsableFrame).1 = connectedHeartbeatSession ∧
      (Incoming connectedHeartbeatSession true true unparsableFrame).2 =
        [Effect.logIncoming, Effect.logParseError,
         Effect.resetPeerTimer (peerTimerTenths connectedHeartbeatSession)]) :=
  peer_timer_reset connectedHeartbeatSession unparsableFrame rfl

/-- Every logged-on state variant is connected. -/
theorem loggedOn_connected (st : SessionState) (h : st.isLoggedOn = true) :
    st.isConnected = true := by
  induction st with
  | pendingTimeout inner ih => exact ih h
  | _ => simp_all [SessionState.isConnected, SessionState.isLoggedOn, SessionState.caps,
      connectedNotLoggedOnBits, loggedOnBits, inSessionTimeBits]

/-- Claim C6: in `pendingTimeout{inner}` (inner being `inSession` or
`resendState`), a further `PeerTimeout` invokes `application.OnLogout` and
drops to `latentState`, while `NeedHeartbeat`, `LogonTimeout` and
`LogoutTimeout` leave the state at `pendingTimeout{inner}`. -/
theorem pending_timeout_events (s : Session) (inner : SessionState)
    (hs : s.state = .pendingTimeout inner)
    (hi : inner = .inSession ∨ ∃ a b, inner = .resendState a b) :
    ((Timeout s true true .peerTimeout).1.state = .latentState ∧
     Effect.onLogout ∈ (Timeout s true true .peerTimeout).2) ∧
    (Timeout s true true .needHeartbeat).1.state = .pendingTimeout inner ∧
    (Timeout s true true .logonTimeout).1.state = .pendingTimeout inner ∧
    (Timeout s true true .logoutTimeout).1.state = .pendingTimeout inner := by
  have hsess : s.state.isSessionTime = true := by
    rcases hi with h1 | ⟨a, b, h2⟩ <;> subst_vars <;>
      simp [hs, SessionState.isSessionTime, SessionState.caps, loggedOnBits]
  have hc := checkSessionTime_in_range s hsess
  rcases hi with h1 | ⟨a, b, h2⟩ <;> subst_vars <;>
  cases hd : s.resetOnDisconnect <;>
  cases hp : s.pendingStop <;>
  simp [Timeout, hc, hs, stateTimeout, setState, setState_state, handleDisconnectState,
    onDisconnect, dropAndReset, hd, hp,
    SessionState.isConnected, SessionState.isLoggedOn, SessionState.isSessionTime,
    SessionState.caps, loggedOnBits, inSessionTimeBits]

/-- A session waiting out a first peer timeout over `inSession`. -/
def pendingOverInSession : Session := { state := .pendingTimeout .inSession }

/-- Witness for claim C6 at the concrete `pendingTimeout{inSession}`. -/
theorem pending_timeout_events_witness :
    ((Timeout pendingOverInSession true true .peerTimeout).1.state = .latentState ∧
     Effect.onLogout ∈ (Timeout pendingOverInSession true true .peerTimeout).2) ∧
    (Timeout pendingOverInSession true true .needHeartbeat).1.state = .pendingTimeout .inSession ∧
    (Timeout pendingOverInSession true true .logonTimeout).1.state = .pendingTimeout .inSession ∧
    (Timeout pendingOverInSession true true .logoutTimeout).1.state = .pendingTimeout .inSession :=
  pending_timeout_events pendingOverInSession .inSession rfl (Or.inl rfl)

/-- Claim C8: whenever the state does not report logged on,
`SendAppMessages` drops the entire send queue — nothing is transmitted and
the queue is empty afterwards, so no queued message can ever be sent later. -/
theorem send_app_messages_drop (s : Session) (h : s.state.isLoggedOn = false) :
    (SendAppMessages s true true).1.sendQueue = [] ∧
    ∀ i, Effect.transmitApp i ∉ (SendAppMessages s true true).2 := by
  cases hst : s.state.isSessionTime
  · have hnc : s.state.caps.isConnected = false := by
      cases hcc : s.state.caps.isConnected
      · rfl
      · exact absurd (connected_isSessionTime s.state hcc) (by simp [hst])
    cases hp : s.pendingStop <;>
    simp [SendAppMessages, checkSessionTime, hst, hnc, hp, setState,
      SessionState.isLoggedOn, SessionState.isConnected, SessionState.caps, inSessionTimeBits]
  · have hc := checkSessionTime_in_range s hst
    simp [SendAppMessages, hc, h]

/-- A `logonState` session with two queued outbound application messages. -/
def queuedNotLoggedOn : Session := { state := .logonState, sendQueue := [21, 22] }

/-- Witness for claim C8: the concrete not-logged-on session loses its
queue and transmits nothing. -/
theorem send_app_messages_drop_witness :
    (SendAppMessages queuedNotLoggedOn true true).1.sendQueue = [] ∧
    ∀ i, Effect.transmitApp i ∉ (SendAppMessages queuedNotLoggedOn true true).2 :=
  send_app_messages_drop queuedNotLoggedOn rfl

/-- When `now` is inside the window but the store's creation time falls in
a different window, `CheckSessionTime` resets the store and lands in
`latentState`. -/
theorem checkSessionTime_reset (s : Session) :
    (checkSessionTime s true false).1.state = .latentState ∧
    Effect.resetStore ∈ (checkSessionTime s true false).2 := by
  cases hst : s.state.isSessionTime <;>
  simp [checkSessionTime, hst, setState_state, shutdownNow, dropAndReset, setState,
    SessionState.isConnected, SessionState.isLoggedOn, SessionState.caps, inSessionTimeBits]

/-- Claim C9: with `now` in the window but the store's `CreationTime` in a
different window, the session shuts the current state down (a logged-on
state emits its shutdown Logout), performs the store reset of
`dropAndReset`, and transitions to `latentState`; and since every
coordinator entry point (`Incoming`, `SendAppMessages`, `Timeout`, `Start`)
first runs `CheckSessionTime`, each of them produces the same reset and
lands in `latentState`. -/
theorem session_window_reset (s : Session) (f : FixIn) (e : Event) :
    ((checkSessionTime s true false).1.state = .latentState ∧
     Effect.resetStore ∈ (checkSessionTime s true false).2) ∧
    ((Incoming s true false f).1.state = .latentState ∧
     Effect.resetStore ∈ (Incoming s true false f).2) ∧
    ((SendAppMessages s true false).1.state = .latentState ∧
     Effect.resetStore ∈ (SendAppMessages s true false).2) ∧
    ((Timeout s true false e).1.state = .latentState ∧
     Effect.resetStore ∈ (Timeout s true false e).2) ∧
    ((Start s true false).1.state = .latentState ∧
     Effect.resetStore ∈ (Start s true false).2) ∧
    (s.state.isLoggedOn = false ∨ Effect.sendLogout ("") ∈ (checkSessionTime s true false).2) := by
  obtain ⟨h1, h2⟩ := checkSessionTime_reset s
  refine ⟨⟨h1, h2⟩, ?_, ?_, ?_, ?_, ?_⟩
  · constructor <;>
    simp [Incoming, h1, h2, SessionState.isConnected, SessionState.caps, inSessionTimeBits]
  · constructor <;>
    simp [SendAppMessages, h1, h2, SessionState.isLoggedOn, SessionState.caps, inSessionTimeBits]
  · constructor <;>
    simp [Timeout, h1, h2, stateTimeout, setState, SessionState.isConnected,
      SessionState.caps, inSessionTimeBits]
  · exact checkSessionTime_reset _
  · cases hl : s.state.isLoggedOn
    · exact Or.inl rfl
    · have hsess : s.state.isSessionTime = true :=
        connected_isSessionTime s.state (loggedOn_connected s.state hl)
      refine Or.inr ?_
      simp [checkSessionTime, hsess, shutdownNow, hl]

/-- Message processing never touches the machine's state field directly;
the state is only replaced by `setState` afterwards. -/
theorem inSessionFixMsgIn_state (s : Session) (m : Message) :
    (inSessionFixMsgIn s m).1.state = s.state := by
  unfold inSessionFixMsgIn processTooHigh sendResendRequest dropAndReset
  dsimp only
  repeat' split
  all_goals rfl

/-- While the machine sits in `resendState`, `verify` never reports a
stale SendingTime. -/
theorem verify_suspended_not_stale (s : Session) (m : Message) (a b : Nat)
    (hs : s.state = .resendState a b) :
    verify s m ≠ some VerifyError.staleSendingTime := by
  unfold verify checkStaleSuspended
  rw [hs]
  simp only [Bool.not_true, Bool.false_and, Bool.false_eq_true, if_false]
  split <;> simp

/-- While the machine sits in `resendState`, delegated `inSession`
processing never emits a SendingTime-accuracy Reject. -/
theorem inSessionFixMsgIn_no_reject (s : Session) (m : Message) (a b : Nat)
    (hs : s.state = .resendState a b) (r : Nat) :
    Effect.sendReject r ∉ (inSessionFixMsgIn s m).2.2 := by
  have hv := verify_suspended_not_stale s m a b hs
  unfold inSessionFixMsgIn processTooHigh sendResendRequest dropAndReset
  dsimp only
  repeat' split
  all_goals simp_all

/-- Draining the message stash while the machine sits in `resendState`
never emits a Reject. -/
theorem drainStash_no_reject (a b : Nat) :
    ∀ (fuel : Nat) (s : Session) (next : SessionState), s.state = .resendState a b →
      ∀ r, Effect.sendReject r ∉ (drainStash fuel s next).2.2 := by
  intro fuel
  induction fuel with
  | zero => intro s next hs r; simp [drainStash]
  | succ n ih =>
      intro s next hs r
      unfold drainStash
      cases hq : stashLookup s.messageStash s.nextTarget with
      | none => simp [hq]
      | some m =>
          simp only [hq]
          have hs1 : ({ s with messageStash := stashErase s.messageStash s.nextTarget } : Session).state = .resendState a b := hs
          have hnr := inSessionFixMsgIn_no_reject
            { s with messageStash := stashErase s.messageStash s.nextTarget } m a b hs1 r
          have hst := (inSessionFixMsgIn_state
            { s with messageStash := stashErase s.messageStash s.nextTarget } m).trans hs
          have hih := ih (inSessionFixMsgIn
              { s with messageStash := stashErase s.messageStash s.nextTarget } m).1
            ((inSessionFixMsgIn
              { s with messageStash := stashErase s.messageStash s.nextTarget } m).2.1) hst r
          split
          · exact hnr
          · simp only [List.mem_append, not_or]
            exact ⟨hnr, hih⟩

/-- Disconnect side effects never contain a Reject. -/
theorem setState_no_reject (s : Session) (next : SessionState) (r : Nat) :
    Effect.sendReject r ∉ (setState s next).2 := by
  unfold setState handleDisconnectState onDisconnect dropAndReset
  dsimp only
  repeat' split
  all_goals simp

/-- The whole `resendState` message handler never emits a Reject. -/
theorem resendStateFixMsgIn_no_reject (s : Session) (a b : Nat) (m : Message)
    (hs : s.state = .resendState a b) (r : Nat) :
    Effect.sendReject r ∉ (resendStateFixMsgIn s a b m).2.2 := by
  have hnr := inSessionFixMsgIn_no_reject s m a b hs r
  have hst := (inSessionFixMsgIn_state s m).trans hs
  have hdr := drainStash_no_reject a b (inSessionFixMsgIn s m).1.messageStash.length
    (inSessionFixMsgIn s m).1 ((inSessionFixMsgIn s m).2.1) hst r
  unfold resendStateFixMsgIn
  dsimp only
  split
  · exact hnr
  · split
    · simp only [List.mem_append, not_or]
      refine ⟨hnr, ?_⟩
      unfold sendResendRequest
      dsimp only
      repeat' split
      all_goals simp
    · split
      · exact hnr
      · simp only [List.mem_append, not_or]
        exact ⟨hnr, hdr⟩


/-- In `resendState`, `verify` reduces to the pure MsgSeqNum gap check. -/
theorem verify_suspended_eq (s : Session) (m : Message) (a b : Nat)
    (hs : s.state = .resendState a b) :
    verify s m = (if s.nextTarget < m.seqNum then some (.targetTooHigh m.seqNum)
      else if m.seqNum < s.nextTarget then some (.targetTooLow m.seqNum) else none) := by
  unfold verify checkStaleSuspended
  rw [hs]
  simp

/-- Closed form of suspended processing for a too-high application
message: it is stashed and nothing else happens. -/
theorem inSession_suspended_tooHigh (s : Session) (m : Message) (a b : Nat)
    (hs : s.state = .resendState a b) (hm : m.msgType = .application)
    (hlt : s.nextTarget < m.seqNum) :
    inSessionFixMsgIn s m =
      ({ s with messageStash := stashInsert s.messageStash m },
       SessionState.resendState a b, []) := by
  have hv := verify_suspended_eq s m a b hs
  rw [if_pos hlt] at hv
  unfold inSessionFixMsgIn processTooHigh
  repeat' split
  all_goals simp_all


/-- Closed form of suspended processing for the expected sequence number:
the message is delivered and the target advances. -/
theorem inSession_suspended_deliver (s : Session) (m : Message) (a b : Nat)
    (hs : s.state = .resendState a b) (hm : m.msgType = .application)
    (he : m.seqNum = s.nextTarget) :
    inSessionFixMsgIn s m =
      ({ s with nextTarget := s.nextTarget + 1 }, SessionState.inSession,
       [Effect.fromApp m.seqNum]) := by
  have hv := verify_suspended_eq s m a b hs
  rw [he] at hv
  simp only [lt_irrefl, if_false] at hv
  rw [he]
  unfold inSessionFixMsgIn
  repeat' split
  all_goals simp_all [he]

/-- Closed form of suspended processing for a too-low possible duplicate:
it is ignored. -/
theorem inSession_suspended_tooLow_dup (s : Session) (m : Message) (a b : Nat)
    (hs : s.state = .resendState a b) (hm : m.msgType = .application)
    (hg : m.seqNum < s.nextTarget) (hp : m.possDup = true) :
    inSessionFixMsgIn s m = (s, SessionState.inSession, []) := by
  have hv := verify_suspended_eq s m a b hs
  rw [if_neg (by omega), if_pos hg] at hv
  unfold inSessionFixMsgIn
  repeat' split
  all_goals simp_all

/-- Closed form of suspended processing for a too-low non-duplicate: the
session sends the too-low Logout. -/
theorem inSession_suspended_tooLow_logout (s : Session) (m : Message) (a b : Nat)
    (hs : s.state = .resendState a b) (hm : m.msgType = .application)
    (hg : m.seqNum < s.nextTarget) (hp : m.possDup = false) :
    inSessionFixMsgIn s m =
      ({ s with nextSender := s.nextSender + 1 }, SessionState.latentState,
       [Effect.sendLogout ("MsgSeqNum too low, expecting " ++ toString s.nextTarget ++
         " but received " ++ toString m.seqNum)]) := by
  have hv := verify_suspended_eq s m a b hs
  rw [if_neg (by omega), if_pos hg] at hv
  unfold inSessionFixMsgIn
  repeat' split
  all_goals simp_all


set_option maxHeartbeats 2000000 in
/-- Claim C4: while the session is in `resendState`, the SendingTime
staleness check against MaxLatency is disabled: processing a message whose
SendingTime is older than MaxLatency yields exactly the state, target
sequence number and effects of processing the same message with a fresh
SendingTime (normal gap processing), and no Reject is ever emitted.  The
hypothesis `s.nextTarget ≤ a` is the resend-range invariant: the range end
is at least the next expected sequence number while a resend is active. -/
theorem resend_stale_suspended (s : Session) (a b : Nat) (m : Message)
    (hs : s.state = .resendState a b) (hm : m.msgType = .application)
    (hr : s.nextTarget ≤ a) :
    ((fixMsgIn s { m with stale := true }).1.state =
       (fixMsgIn s { m with stale := false }).1.state ∧
     (fixMsgIn s { m with stale := true }).1.nextTarget =
       (fixMsgIn s { m with stale := false }).1.nextTarget ∧
     (fixMsgIn s { m with stale := true }).2 =
       (fixMsgIn s { m with stale := false }).2) ∧
    ∀ r, Effect.sendReject r ∉ (fixMsgIn s { m with stale := true }).2 := by
  have hdispatch : ∀ mm : Message, fixMsgIn s mm =
      (let r := resendStateFixMsgIn s a b mm
       let q := setState r.1 r.2.1
       (q.1, r.2.2 ++ q.2)) := by
    intro mm
    unfold fixMsgIn
    rw [hs]
    rfl
  constructor
  · rcases Nat.lt_trichotomy s.nextTarget m.seqNum with hlt | heq2 | hgt
    · have ht := inSession_suspended_tooHigh s { m with stale := true } a b hs hm hlt
      have hf := inSession_suspended_tooHigh s { m with stale := false } a b hs hm hlt
      rw [hdispatch, hdispatch]
      unfold resendStateFixMsgIn
      rw [ht, hf]
      unfold setState sendResendRequest
      simp only [SessionState.isLoggedOn, SessionState.isConnected, SessionState.caps,
        loggedOnBits, Bool.not_true, Bool.false_eq_true, if_false]
      dsimp only
      split_ifs <;> first
        | exact ⟨rfl, rfl, rfl⟩
        | omega
        | exact absurd rfl (by assumption)
    · have ht := inSession_suspended_deliver s { m with stale := true } a b hs hm heq2.symm
      have hf := inSession_suspended_deliver s { m with stale := false } a b hs hm heq2.symm
      have hfull : fixMsgIn s { m with stale := true } = fixMsgIn s { m with stale := false } := by
        rw [hdispatch, hdispatch]
        unfold resendStateFixMsgIn
        rw [ht, hf]
      exact ⟨by rw [hfull], by rw [hfull], by rw [hfull]⟩
    · rcases Bool.eq_false_or_eq_true m.possDup with hp | hp
      · have ht := inSession_suspended_tooLow_dup s { m with stale := true } a b hs hm hgt hp
        have hf := inSession_suspended_tooLow_dup s { m with stale := false } a b hs hm hgt hp
        have hfull : fixMsgIn s { m with stale := true } = fixMsgIn s { m with stale := false } := by
          rw [hdispatch, hdispatch]
          unfold resendStateFixMsgIn
          rw [ht, hf]
        exact ⟨by rw [hfull], by rw [hfull], by rw [hfull]⟩
      · have ht := inSession_suspended_tooLow_logout s { m with stale := true } a b hs hm hgt hp
        have hf := inSession_suspended_tooLow_logout s { m with stale := false } a b hs hm hgt hp
        have hfull : fixMsgIn s { m with stale := true } = fixMsgIn s { m with stale := false } := by
          rw [hdispatch, hdispatch]
          unfold resendStateFixMsgIn
          rw [ht, hf]
        exact ⟨by rw [hfull], by rw [hfull], by rw [hfull]⟩
  · intro r
    have h1 := resendStateFixMsgIn_no_reject s a b { m with stale := true } hs r
    have h2 := setState_no_reject (resendStateFixMsgIn s a b { m with stale := true }).1
      ((resendStateFixMsgIn s a b { m with stale := true }).2.1) r
    rw [hdispatch]
    dsimp only
    simp only [List.mem_append, not_or]
    exact ⟨h1, h2⟩

/-- The chunked-resend session of the staleness test: `resendState(3, 2)`
awaiting replay of message 1 with message 4 stashed. -/
def staleScenarioSession : Session := { state := .resendState 3 2
                                        resendRequestChunkSize := 2
                                        messageStash := [{ msgType := .application, seqNum := 4 }] }

/-- The inbound application message with MsgSeqNum 5 whose SendingTime is
checked for staleness. -/
def staleScenarioMessage : Message := { msgType := .application, seqNum := 5 }

/-- Witness for claim C4 at the concrete resend scenario of the staleness
test. -/
theorem resend_stale_suspended_witness :
    (((fixMsgIn staleScenarioSession { staleScenarioMessage with stale := true }).1.state =
       (fixMsgIn staleScenarioSession { staleScenarioMessage with stale := false }).1.state ∧
     (fixMsgIn staleScenarioSession { staleScenarioMessage with stale := true }).1.nextTarget =
       (fixMsgIn staleScenarioSession { staleScenarioMessage with stale := false }).1.nextTarget ∧
     (fixMsgIn staleScenarioSession { staleScenarioMessage with stale := true }).2 =
       (fixMsgIn staleScenarioSession { staleScenarioMessage with stale := false }).2) ∧
    ∀ r, Effect.sendReject r ∉
      (fixMsgIn staleScenarioSession { staleScenarioMessage with stale := true }).2) :=
  resend_stale_suspended staleScenarioSession 3 2 staleScenarioMessage rfl rfl (by decide)

end Quickfix
